import Mathlib

/-!
Verification of the cost-calculation engine of the buy-vs-commute calculator
(`src/components/buy-vs-commute-calculator.tsx`).

The engine's numbers are embedded as exact rationals (`ℚ`); the spec describes
the algorithm as "exact arithmetic, no rounding until display".  Strings typed
into a field always match the input filter `/^\d*\.?\d*$/` (digits and at most
one decimal point), and JavaScript `parseFloat` on such a string is modelled by
`jsParseFloat`, returning `none` for the two digit-free strings (the empty
string and a lone dot), which `parseFloat` maps to `NaN`.  JavaScript
comparisons whose left operand may be `NaN` are modelled by `jsLe`, `jsLt`,
`jsGt` (any comparison with `NaN` is false), and the JavaScript idiom
`parseFloat(x) || d` — which yields `d` both for `NaN` and for a parsed `0`,
since both are falsy — is modelled by `jsOrDefault`.
-/

/-- Numeric value of a list of decimal digit characters (most significant first). -/
def natOfDigits (l : List Char) : ℕ :=
  l.foldl (fun n c => 10 * n + (c.toNat - 48)) 0

/-- Digit-level reading of a decimal string: the value of the integer part,
the value of the fractional part and the number of fractional digits.
Returns `none` when the string holds no digit at all. -/
def jsParseSplit (s : String) : Option (ℕ × ℕ × ℕ) :=
  let cs := s.toList
  let intDigits := cs.takeWhile Char.isDigit
  let rest := cs.dropWhile Char.isDigit
  let fracDigits :=
    match rest with
    | '.' :: r => r.takeWhile Char.isDigit
    | _ => []
  if intDigits = [] ∧ fracDigits = [] then none
  else some (natOfDigits intDigits, natOfDigits fracDigits, fracDigits.length)

/-- Model of JavaScript `parseFloat` restricted to strings made of decimal
digits and at most one dot: an optional integer part, an optional dot, an
optional fractional part.  Returns `none` when the string holds no digit at
all (then `parseFloat` returns `NaN`). -/
def jsParseFloat (s : String) : Option ℚ :=
  (jsParseSplit s).map fun t => (t.1 : ℚ) + (t.2.1 : ℚ) / (10 : ℚ) ^ t.2.2

/-- The input filter of `handleInputChange` and the `onKeyDown` handler:
`/^\d*\.?\d*$/`, digits with at most one decimal point. -/
def decimalFilter (s : String) : Bool :=
  let cs := s.toList
  match cs.dropWhile Char.isDigit with
  | [] => true
  | '.' :: r => r.all Char.isDigit
  | _ => false

/-- JavaScript `x <= c` where `x` may be `NaN` (`none`): false on `NaN`. -/
def jsLe (o : Option ℚ) (c : ℚ) : Bool :=
  match o with
  | none => false
  | some q => decide (q ≤ c)

/-- JavaScript `x < c` where `x` may be `NaN`: false on `NaN`. -/
def jsLt (o : Option ℚ) (c : ℚ) : Bool :=
  match o with
  | none => false
  | some q => decide (q < c)

/-- JavaScript `x > c` where `x` may be `NaN`: false on `NaN`. -/
def jsGt (o : Option ℚ) (c : ℚ) : Bool :=
  match o with
  | none => false
  | some q => decide (c < q)

/-- JavaScript `parseFloat(s) || d`: the default is taken both when the parse
failed (`NaN` is falsy) and when the parsed value is `0` (also falsy). -/
def jsOrDefault (o : Option ℚ) (d : ℚ) : ℚ :=
  match o with
  | none => d
  | some q => if q = 0 then d else q

/-- The ten form fields of the calculator. -/
inductive FieldName where
  | carPrice
  | fuelEfficiency
  | fuelPrice
  | distanceToWork
  | workingDaysPerMonth
  | maintenanceCosts
  | insuranceCosts
  | resaleValue
  | resaleYears
  | publicTransportCosts
deriving DecidableEq, Repr

/-- The form state: the raw string currently held by each field. -/
structure FormData where
  carPrice : String
  fuelEfficiency : String
  fuelPrice : String
  distanceToWork : String
  workingDaysPerMonth : String
  maintenanceCosts : String
  insuranceCosts : String
  resaleValue : String
  resaleYears : String
  publicTransportCosts : String
deriving DecidableEq, Repr

/-- FieldName lookup in the form state. -/
def FormData.get (fd : FormData) : FieldName → String
  | .carPrice => fd.carPrice
  | .fuelEfficiency => fd.fuelEfficiency
  | .fuelPrice => fd.fuelPrice
  | .distanceToWork => fd.distanceToWork
  | .workingDaysPerMonth => fd.workingDaysPerMonth
  | .maintenanceCosts => fd.maintenanceCosts
  | .insuranceCosts => fd.insuranceCosts
  | .resaleValue => fd.resaleValue
  | .resaleYears => fd.resaleYears
  | .publicTransportCosts => fd.publicTransportCosts

/-- All fields, in the insertion order of the `formData` object literal
(the order `Object.entries` iterates in `validateForm`). -/
def allFields : List FieldName :=
  [.carPrice, .fuelEfficiency, .fuelPrice, .distanceToWork, .workingDaysPerMonth,
   .maintenanceCosts, .insuranceCosts, .resaleValue, .resaleYears, .publicTransportCosts]

/-- The `requiredFields` array of `validateForm`. -/
def requiredFields : List FieldName :=
  [.carPrice, .fuelEfficiency, .fuelPrice, .workingDaysPerMonth]

def emptyStr : String := ""

def errCarPrice : String := "Car price must be greater than 0"

def errFuelEfficiency : String := "Fuel efficiency must be greater than 0"

def errFuelPrice : String := "Fuel price must be greater than 0"

def errWorkingDays : String := "Working days must be between 1 and 31"

def errResaleYears : String := "Years until resale must be greater than 0"

def errNegative : String := "Value cannot be negative"

def errRequired : String := "This field is required"

/-- `validateField` of the source: empty string is immediately valid; otherwise
the value is parsed and compared per field, with `NaN` comparisons false. -/
def validateField (name : FieldName) (value : String) : String :=
  if value = emptyStr then emptyStr
  else
    let numValue := jsParseFloat value
    match name with
    | .carPrice => if jsLe numValue 0 then errCarPrice else emptyStr
    | .fuelEfficiency => if jsLe numValue 0 then errFuelEfficiency else emptyStr
    | .fuelPrice => if jsLe numValue 0 then errFuelPrice else emptyStr
    | .workingDaysPerMonth =>
        if jsLe numValue 0 || jsGt numValue 31 then errWorkingDays else emptyStr
    | .resaleYears => if jsLe numValue 0 then errResaleYears else emptyStr
    | _ => if jsLt numValue 0 then errNegative else emptyStr

/-- The `newErrors` mapping and the `isValid` flag accumulated by `validateForm`. -/
structure ValidationState where
  errors : FieldName → String
  isValid : Bool

/-- One iteration of `validateForm`'s loop over `Object.entries(formData)`:
record the field's error (if any) and clear `isValid`. -/
def fieldStep (fd : FormData) (st : ValidationState) (name : FieldName) : ValidationState :=
  let error := validateField name (fd.get name)
  if error ≠ emptyStr then ⟨Function.update st.errors name error, false⟩ else st

/-- One iteration of `validateForm`'s loop over `requiredFields`: an empty
required field gets the required-field message and clears `isValid`. -/
def requiredStep (fd : FormData) (st : ValidationState) (field : FieldName) : ValidationState :=
  if fd.get field = emptyStr then
    ⟨Function.update st.errors field errRequired, false⟩
  else st

/-- `validateForm` of the source: re-validate every field, then check the four
required fields for presence; returns the populated error mapping and the
overall flag. -/
def validateForm (fd : FormData) : ValidationState :=
  requiredFields.foldl (requiredStep fd)
    (allFields.foldl (fieldStep fd) ⟨fun _ => emptyStr, true⟩)

/-- The fully-parsed numeric inputs the engine computes with (the `values`
object built at the top of `calculateCosts`). -/
structure EngineValues where
  carPrice : ℚ
  fuelEfficiency : ℚ
  fuelPrice : ℚ
  distanceToWork : ℚ
  workingDaysPerMonth : ℚ
  maintenanceCosts : ℚ
  insuranceCosts : ℚ
  resaleValue : ℚ
  resaleYears : ℚ
  publicTransportCosts : ℚ
deriving DecidableEq, Repr

/-- The `values` object of `calculateCosts`: every field is
`parseFloat(formData.x) || 0` except `resaleYears`, which is
`parseFloat(formData.resaleYears) || 1`. -/
def engineValues (fd : FormData) : EngineValues where
  carPrice := jsOrDefault (jsParseFloat fd.carPrice) 0
  fuelEfficiency := jsOrDefault (jsParseFloat fd.fuelEfficiency) 0
  fuelPrice := jsOrDefault (jsParseFloat fd.fuelPrice) 0
  distanceToWork := jsOrDefault (jsParseFloat fd.distanceToWork) 0
  workingDaysPerMonth := jsOrDefault (jsParseFloat fd.workingDaysPerMonth) 0
  maintenanceCosts := jsOrDefault (jsParseFloat fd.maintenanceCosts) 0
  insuranceCosts := jsOrDefault (jsParseFloat fd.insuranceCosts) 0
  resaleValue := jsOrDefault (jsParseFloat fd.resaleValue) 0
  resaleYears := jsOrDefault (jsParseFloat fd.resaleYears) 1
  publicTransportCosts := jsOrDefault (jsParseFloat fd.publicTransportCosts) 0

/-- FieldName lookup in the parsed engine inputs. -/
def EngineValues.get (v : EngineValues) : FieldName → ℚ
  | .carPrice => v.carPrice
  | .fuelEfficiency => v.fuelEfficiency
  | .fuelPrice => v.fuelPrice
  | .distanceToWork => v.distanceToWork
  | .workingDaysPerMonth => v.workingDaysPerMonth
  | .maintenanceCosts => v.maintenanceCosts
  | .insuranceCosts => v.insuranceCosts
  | .resaleValue => v.resaleValue
  | .resaleYears => v.resaleYears
  | .publicTransportCosts => v.publicTransportCosts

/-- `calculateEmissions`: fixed factor 0.404 kg CO2 per km, converted to
metric tons over twelve months. -/
def calculateEmissions (monthlyDistance : ℚ) : ℚ :=
  (monthlyDistance * 12 * (404 / 1000)) / 1000

/-- `monthlyDistance` as computed inside `calculateCosts`. -/
def monthlyDistanceOf (fd : FormData) : ℚ :=
  (engineValues fd).distanceToWork * 2 * (engineValues fd).workingDaysPerMonth

/-- The result record produced by a successful calculation. -/
structure CalculationResult where
  totalCarCost : ℚ
  totalCommuteCost : ℚ
  monthlySavings : ℚ
  yearlySavings : ℚ
  fuelCosts : ℚ
  maintenanceCost : ℚ
  insuranceCost : ℚ
  depreciationCost : ℚ
  yearlyEmissions : ℚ
deriving DecidableEq, Repr

/-- The arithmetic body of `calculateCosts` (the `try` block), as a pure
function from the parsed inputs to the result record passed to `setResult`. -/
def computeResult (fd : FormData) : CalculationResult :=
  let values := engineValues fd
  let monthlyDistance := monthlyDistanceOf fd
  let monthlyFuelCosts := (monthlyDistance / values.fuelEfficiency) * values.fuelPrice
  let totalDepreciation := values.carPrice - values.resaleValue
  let monthlyDepreciation := totalDepreciation / (values.resaleYears * 12)
  let monthlyCarCosts :=
    monthlyFuelCosts + values.maintenanceCosts + (values.insuranceCosts / 12) +
      monthlyDepreciation
  let yearlyCarCosts := monthlyCarCosts * 12
  let yearlyCommuteCosts := values.publicTransportCosts * 12
  { totalCarCost := monthlyCarCosts
    totalCommuteCost := values.publicTransportCosts
    monthlySavings := values.publicTransportCosts - monthlyCarCosts
    yearlySavings := yearlyCommuteCosts - yearlyCarCosts
    fuelCosts := monthlyFuelCosts
    maintenanceCost := values.maintenanceCosts
    insuranceCost := values.insuranceCosts / 12
    depreciationCost := monthlyDepreciation
    yearlyEmissions := calculateEmissions monthlyDistance }

/-- `calculateCosts` as a transition on the stored result: when `validateForm`
fails it returns early and the previous result (or its absence) is kept;
otherwise `setResult` replaces it with the freshly computed record. -/
def calculateCosts (fd : FormData) (prev : Option CalculationResult) :
    Option CalculationResult :=
  if (validateForm fd).isValid then some (computeResult fd) else prev

def dotStr : String := "."

def minusStr : String := "-"

def zeroDigit : String := "0"

def crSuffix : String := " Cr"

def lSuffix : String := " L"

def kSuffix : String := " K"

/-- Two-digit rendering of a remainder below 100 (the fractional digits that
`toFixed(2)` prints). -/
def pad2 (n : ℕ) : String :=
  if n < 10 then zeroDigit ++ toString n else toString n

/-- `toFixed(2)` on a non-negative exact rational: the printed integer is the
nearest multiple of 1/100, ties toward the larger integer, as ECMAScript
specifies for `Number.prototype.toFixed`. -/
def fixed2mag (q : ℚ) : String :=
  let m : ℕ := (⌊q * 100 + 1 / 2⌋).toNat
  toString (m / 100) ++ (dotStr ++ pad2 (m % 100))

/-- `toFixed(2)` on an exact rational: ECMAScript first splits off the sign
and then rounds the magnitude. -/
def jsToFixed2 (q : ℚ) : String :=
  if q < 0 then minusStr ++ fixed2mag (-q) else fixed2mag q

/-- `formatIndianNumber` of the source: three magnitude bands (crore, lakh,
thousand), each scaled value printed with `toFixed(2)`, and anything below
1,000 printed with `toFixed(2)` unscaled and without a suffix. -/
def formatIndianNumber (num : ℚ) : String :=
  if num ≥ 10000000 then jsToFixed2 (num / 10000000) ++ crSuffix
  else if num ≥ 100000 then jsToFixed2 (num / 100000) ++ lSuffix
  else if num ≥ 1000 then jsToFixed2 (num / 1000) ++ kSuffix
  else jsToFixed2 num

/-- The worked scenario of the spec: every field filled with the stated
value. -/
def fdScenario : FormData where
  carPrice := "600000"
  fuelEfficiency := "15"
  fuelPrice := "100"
  distanceToWork := "10"
  workingDaysPerMonth := "22"
  maintenanceCosts := "1000"
  insuranceCosts := "12000"
  resaleValue := "200000"
  resaleYears := "5"
  publicTransportCosts := "2000"

/-- A form state whose fuelEfficiency is the filter-accepted string made of a
lone decimal point, with the other required fields validly filled. -/
def fdDot : FormData where
  carPrice := "1"
  fuelEfficiency := "."
  fuelPrice := "1"
  distanceToWork := ""
  workingDaysPerMonth := "1"
  maintenanceCosts := ""
  insuranceCosts := ""
  resaleValue := ""
  resaleYears := ""
  publicTransportCosts := ""

/-- The pristine form: every field empty. -/
def fdEmpty : FormData where
  carPrice := ""
  fuelEfficiency := ""
  fuelPrice := ""
  distanceToWork := ""
  workingDaysPerMonth := ""
  maintenanceCosts := ""
  insuranceCosts := ""
  resaleValue := ""
  resaleYears := ""
  publicTransportCosts := ""

/-- A form state whose resale value exceeds the car price, driving the
monthly depreciation negative. -/
def fdNeg : FormData where
  carPrice := "100"
  fuelEfficiency := "1"
  fuelPrice := "1"
  distanceToWork := ""
  workingDaysPerMonth := "1"
  maintenanceCosts := ""
  insuranceCosts := ""
  resaleValue := "1300"
  resaleYears := "1"
  publicTransportCosts := ""

def s0 : String := "0"

def s1 : String := "1"

def s31 : String := "31"

def s32 : String := "32"

def strOneK : String := "1.00 K"

def strOneL : String := "1.00 L"

def strOneCr : String := "1.00 Cr"

def strNeg9600 : String := "-9600.00"

/-! ### Evaluation helpers -/

theorem jsParseFloat_of_split (s : String) (a b k : ℕ) (q : ℚ)
    (h : jsParseSplit s = some (a, b, k)) (hq : (a : ℚ) + (b : ℚ) / (10 : ℚ) ^ k = q) :
    jsParseFloat s = some q := by
  rw [jsParseFloat, h, Option.map_some']
  exact congrArg some hq

theorem jsParseFloat_of_split_none (s : String) (h : jsParseSplit s = none) :
    jsParseFloat s = none := by
  rw [jsParseFloat, h, Option.map_none']

theorem validateField_empty (f : FieldName) : validateField f emptyStr = emptyStr := by
  simp [validateField]

/-- A field whose value parses to a positive number (at most 31 in the case of
the working-days field) passes its single-field validation. -/
theorem validateField_eq_empty_of_pos (f : FieldName) (s : String) (q : ℚ)
    (hs : s ≠ emptyStr) (hp : jsParseFloat s = some q) (h0 : 0 < q)
    (h31 : f = FieldName.workingDaysPerMonth → q ≤ 31) :
    validateField f s = emptyStr := by
  have hle : jsLe (jsParseFloat s) 0 = false := by
    rw [hp]; simpa [jsLe] using not_le.mpr h0
  have hlt : jsLt (jsParseFloat s) 0 = false := by
    rw [hp]; simpa [jsLt] using not_lt.mpr h0.le
  cases f with
  | workingDaysPerMonth =>
      have hgt : jsGt (jsParseFloat s) 31 = false := by
        rw [hp]; simpa [jsGt] using not_lt.mpr (h31 rfl)
      simp [validateField, hs, hle, hgt]
  | carPrice => simp [validateField, hs, hle]
  | fuelEfficiency => simp [validateField, hs, hle]
  | fuelPrice => simp [validateField, hs, hle]
  | resaleYears => simp [validateField, hs, hle]
  | distanceToWork => simp [validateField, hs, hlt]
  | maintenanceCosts => simp [validateField, hs, hlt]
  | insuranceCosts => simp [validateField, hs, hlt]
  | resaleValue => simp [validateField, hs, hlt]
  | publicTransportCosts => simp [validateField, hs, hlt]

/-- A field whose value does not parse (`NaN`) passes every comparison and so
passes its single-field validation. -/
theorem validateField_eq_empty_of_none (f : FieldName) (s : String)
    (hp : jsParseFloat s = none) :
    validateField f s = emptyStr := by
  by_cases hs : s = emptyStr
  · rw [hs]; exact validateField_empty f
  · cases f <;> simp [validateField, hs, hp, jsLe, jsLt, jsGt]

/-! ### Characterisation of `validateForm`'s fold -/

theorem isValid_foldl_fieldStep (fd : FormData) (l : List FieldName) (st : ValidationState) :
    (l.foldl (fieldStep fd) st).isValid =
      (st.isValid && l.all fun f => validateField f (fd.get f) == emptyStr) := by
  induction l generalizing st with
  | nil => simp
  | cons f l ih =>
      by_cases h : validateField f (fd.get f) = emptyStr
      · rw [List.foldl_cons, List.all_cons]
        have hstep : fieldStep fd st f = st := by simp [fieldStep, h]
        rw [hstep, ih, h]
        simp
      · rw [List.foldl_cons, List.all_cons]
        have hstep : fieldStep fd st f =
            ⟨Function.update st.errors f (validateField f (fd.get f)), false⟩ := by
          simp [fieldStep, h]
        rw [hstep, ih]
        simp [h]


theorem isValid_foldl_requiredStep (fd : FormData) (l : List FieldName) (st : ValidationState) :
    (l.foldl (requiredStep fd) st).isValid =
      (st.isValid && l.all fun f => !(fd.get f == emptyStr)) := by
  induction l generalizing st with
  | nil => simp
  | cons f l ih =>
      by_cases h : fd.get f = emptyStr
      · have hstep : requiredStep fd st f = ⟨Function.update st.errors f errRequired, false⟩ := by
          simp [requiredStep, h]
        rw [List.foldl_cons, List.all_cons, hstep, ih, h]
        simp
      · have hstep : requiredStep fd st f = st := by simp [requiredStep, h]
        have hb : (fd.get f == emptyStr) = false := by simp [h]
        rw [List.foldl_cons, List.all_cons, hstep, ih, hb]
        simp

/-- `validateForm` succeeds exactly when every field passes `validateField`
and every required field is nonempty. -/
theorem validateForm_isValid (fd : FormData) :
    (validateForm fd).isValid =
      ((allFields.all fun f => validateField f (fd.get f) == emptyStr) &&
        (requiredFields.all fun f => !(fd.get f == emptyStr))) := by
  rw [validateForm, isValid_foldl_requiredStep, isValid_foldl_fieldStep]
  simp

theorem errors_foldl_fieldStep (fd : FormData) (l : List FieldName) (st : ValidationState)
    (g : FieldName) (hg : validateField g (fd.get g) = emptyStr) :
    (l.foldl (fieldStep fd) st).errors g = st.errors g := by
  induction l generalizing st with
  | nil => rfl
  | cons f l ih =>
      rw [List.foldl_cons]
      rw [ih (fieldStep fd st f)]
      by_cases h : validateField f (fd.get f) = emptyStr
      · simp [fieldStep, h]
      · have hne : g ≠ f := by
          intro he
          exact h (he ▸ hg)
        simp [fieldStep, h, Function.update_noteq hne]

theorem errors_foldl_requiredStep_notmem (fd : FormData) (l : List FieldName)
    (st : ValidationState) (g : FieldName) (hg : g ∉ l) :
    (l.foldl (requiredStep fd) st).errors g = st.errors g := by
  induction l generalizing st with
  | nil => rfl
  | cons f l ih =>
      rw [List.foldl_cons, ih (requiredStep fd st f) (fun h => hg (List.mem_cons_of_mem f h))]
      have hne : g ≠ f := fun he => hg (he ▸ List.mem_cons_self f l)
      by_cases h : fd.get f = emptyStr
      · simp [requiredStep, h, Function.update_noteq hne]
      · simp [requiredStep, h]

theorem jsOrDefault_some_ne (q d : ℚ) (h : q ≠ 0) : jsOrDefault (some q) d = q := by
  simp [jsOrDefault, h]

theorem jsOrDefault_none (d : ℚ) : jsOrDefault none d = d := rfl

/-! ### Evaluation on the concrete form states -/

theorem parse_scenario_carPrice : jsParseFloat fdScenario.carPrice = some 600000 :=
  jsParseFloat_of_split _ 600000 0 0 _ (by rfl) (by norm_num)

theorem parse_scenario_fuelEfficiency : jsParseFloat fdScenario.fuelEfficiency = some 15 :=
  jsParseFloat_of_split _ 15 0 0 _ (by rfl) (by norm_num)

theorem parse_scenario_fuelPrice : jsParseFloat fdScenario.fuelPrice = some 100 :=
  jsParseFloat_of_split _ 100 0 0 _ (by rfl) (by norm_num)

theorem parse_scenario_distanceToWork : jsParseFloat fdScenario.distanceToWork = some 10 :=
  jsParseFloat_of_split _ 10 0 0 _ (by rfl) (by norm_num)

theorem parse_scenario_workingDays : jsParseFloat fdScenario.workingDaysPerMonth = some 22 :=
  jsParseFloat_of_split _ 22 0 0 _ (by rfl) (by norm_num)

theorem parse_scenario_maintenance : jsParseFloat fdScenario.maintenanceCosts = some 1000 :=
  jsParseFloat_of_split _ 1000 0 0 _ (by rfl) (by norm_num)

theorem parse_scenario_insurance : jsParseFloat fdScenario.insuranceCosts = some 12000 :=
  jsParseFloat_of_split _ 12000 0 0 _ (by rfl) (by norm_num)

theorem parse_scenario_resaleValue : jsParseFloat fdScenario.resaleValue = some 200000 :=
  jsParseFloat_of_split _ 200000 0 0 _ (by rfl) (by norm_num)

theorem parse_scenario_resaleYears : jsParseFloat fdScenario.resaleYears = some 5 :=
  jsParseFloat_of_split _ 5 0 0 _ (by rfl) (by norm_num)

theorem parse_scenario_publicTransport : jsParseFloat fdScenario.publicTransportCosts = some 2000 :=
  jsParseFloat_of_split _ 2000 0 0 _ (by rfl) (by norm_num)

/-- The parsed engine inputs for the spec's worked scenario. -/
theorem engineValues_fdScenario :
    engineValues fdScenario =
      ⟨600000, 15, 100, 10, 22, 1000, 12000, 200000, 5, 2000⟩ := by
  simp only [engineValues, parse_scenario_carPrice, parse_scenario_fuelEfficiency,
    parse_scenario_fuelPrice, parse_scenario_distanceToWork, parse_scenario_workingDays,
    parse_scenario_maintenance, parse_scenario_insurance, parse_scenario_resaleValue,
    parse_scenario_resaleYears, parse_scenario_publicTransport]
  rw [jsOrDefault_some_ne 600000 0 (by norm_num), jsOrDefault_some_ne 15 0 (by norm_num),
    jsOrDefault_some_ne 100 0 (by norm_num), jsOrDefault_some_ne 10 0 (by norm_num),
    jsOrDefault_some_ne 22 0 (by norm_num), jsOrDefault_some_ne 1000 0 (by norm_num),
    jsOrDefault_some_ne 12000 0 (by norm_num), jsOrDefault_some_ne 200000 0 (by norm_num),
    jsOrDefault_some_ne 5 1 (by norm_num), jsOrDefault_some_ne 2000 0 (by norm_num)]

/-- The worked scenario passes the whole-form validation. -/
theorem validateForm_fdScenario : (validateForm fdScenario).isValid = true := by
  have h1 : validateField FieldName.carPrice (fdScenario.get FieldName.carPrice) = emptyStr :=
    validateField_eq_empty_of_pos _ _ 600000 (by decide) parse_scenario_carPrice (by norm_num)
      (fun h => nomatch h)
  have h2 : validateField FieldName.fuelEfficiency (fdScenario.get FieldName.fuelEfficiency) =
      emptyStr :=
    validateField_eq_empty_of_pos _ _ 15 (by decide) parse_scenario_fuelEfficiency (by norm_num)
      (fun h => nomatch h)
  have h3 : validateField FieldName.fuelPrice (fdScenario.get FieldName.fuelPrice) = emptyStr :=
    validateField_eq_empty_of_pos _ _ 100 (by decide) parse_scenario_fuelPrice (by norm_num)
      (fun h => nomatch h)
  have h4 : validateField FieldName.distanceToWork (fdScenario.get FieldName.distanceToWork) =
      emptyStr :=
    validateField_eq_empty_of_pos _ _ 10 (by decide) parse_scenario_distanceToWork (by norm_num)
      (fun h => nomatch h)
  have h5 : validateField FieldName.workingDaysPerMonth
      (fdScenario.get FieldName.workingDaysPerMonth) = emptyStr :=
    validateField_eq_empty_of_pos _ _ 22 (by decide) parse_scenario_workingDays (by norm_num)
      (fun _ => by norm_num)
  have h6 : validateField FieldName.maintenanceCosts (fdScenario.get FieldName.maintenanceCosts) =
      emptyStr :=
    validateField_eq_empty_of_pos _ _ 1000 (by decide) parse_scenario_maintenance (by norm_num)
      (fun h => nomatch h)
  have h7 : validateField FieldName.insuranceCosts (fdScenario.get FieldName.insuranceCosts) =
      emptyStr :=
    validateField_eq_empty_of_pos _ _ 12000 (by decide) parse_scenario_insurance (by norm_num)
      (fun h => nomatch h)
  have h8 : validateField FieldName.resaleValue (fdScenario.get FieldName.resaleValue) =
      emptyStr :=
    validateField_eq_empty_of_pos _ _ 200000 (by decide) parse_scenario_resaleValue (by norm_num)
      (fun h => nomatch h)
  have h9 : validateField FieldName.resaleYears (fdScenario.get FieldName.resaleYears) =
      emptyStr :=
    validateField_eq_empty_of_pos _ _ 5 (by decide) parse_scenario_resaleYears (by norm_num)
      (fun h => nomatch h)
  have h10 : validateField FieldName.publicTransportCosts
      (fdScenario.get FieldName.publicTransportCosts) = emptyStr :=
    validateField_eq_empty_of_pos _ _ 2000 (by decide) parse_scenario_publicTransport
      (by norm_num) (fun h => nomatch h)
  rw [validateForm_isValid]
  simp only [allFields, requiredFields, List.all_cons, List.all_nil, h1, h2, h3, h4, h5, h6,
    h7, h8, h9, h10]
  decide

theorem parse_fdDot_carPrice : jsParseFloat fdDot.carPrice = some 1 :=
  jsParseFloat_of_split _ 1 0 0 _ (by rfl) (by norm_num)

theorem parse_fdDot_fuelEfficiency : jsParseFloat fdDot.fuelEfficiency = none :=
  jsParseFloat_of_split_none _ (by rfl)

theorem parse_fdDot_fuelPrice : jsParseFloat fdDot.fuelPrice = some 1 :=
  jsParseFloat_of_split _ 1 0 0 _ (by rfl) (by norm_num)

theorem parse_fdDot_workingDays : jsParseFloat fdDot.workingDaysPerMonth = some 1 :=
  jsParseFloat_of_split _ 1 0 0 _ (by rfl) (by norm_num)

/-- The lone-dot form state passes the whole-form validation: a `NaN` value
fails none of the comparisons, and all four required fields are nonempty. -/
theorem validateForm_fdDot : (validateForm fdDot).isValid = true := by
  have h1 : validateField FieldName.carPrice (fdDot.get FieldName.carPrice) = emptyStr :=
    validateField_eq_empty_of_pos _ _ 1 (by decide) parse_fdDot_carPrice (by norm_num)
      (fun h => nomatch h)
  have h2 : validateField FieldName.fuelEfficiency (fdDot.get FieldName.fuelEfficiency) =
      emptyStr :=
    validateField_eq_empty_of_none _ _ parse_fdDot_fuelEfficiency
  have h3 : validateField FieldName.fuelPrice (fdDot.get FieldName.fuelPrice) = emptyStr :=
    validateField_eq_empty_of_pos _ _ 1 (by decide) parse_fdDot_fuelPrice (by norm_num)
      (fun h => nomatch h)
  have h4 : validateField FieldName.distanceToWork (fdDot.get FieldName.distanceToWork) =
      emptyStr := validateField_empty _
  have h5 : validateField FieldName.workingDaysPerMonth
      (fdDot.get FieldName.workingDaysPerMonth) = emptyStr :=
    validateField_eq_empty_of_pos _ _ 1 (by decide) parse_fdDot_workingDays (by norm_num)
      (fun _ => by norm_num)
  have h6 : validateField FieldName.maintenanceCosts (fdDot.get FieldName.maintenanceCosts) =
      emptyStr := validateField_empty _
  have h7 : validateField FieldName.insuranceCosts (fdDot.get FieldName.insuranceCosts) =
      emptyStr := validateField_empty _
  have h8 : validateField FieldName.resaleValue (fdDot.get FieldName.resaleValue) = emptyStr :=
    validateField_empty _
  have h9 : validateField FieldName.resaleYears (fdDot.get FieldName.resaleYears) = emptyStr :=
    validateField_empty _
  have h10 : validateField FieldName.publicTransportCosts
      (fdDot.get FieldName.publicTransportCosts) = emptyStr := validateField_empty _
  rw [validateForm_isValid]
  simp only [allFields, requiredFields, List.all_cons, List.all_nil, h1, h2, h3, h4, h5, h6,
    h7, h8, h9, h10]
  decide

/-- On the lone-dot form the engine's fuel efficiency defaults to `0`:
`parseFloat(".")` is `NaN`, and `NaN || 0` is `0`. -/
theorem engineValues_fdDot_fuelEfficiency : (engineValues fdDot).fuelEfficiency = 0 := rfl

theorem parse_fdNeg_carPrice : jsParseFloat fdNeg.carPrice = some 100 :=
  jsParseFloat_of_split _ 100 0 0 _ (by rfl) (by norm_num)

theorem parse_fdNeg_fuelEfficiency : jsParseFloat fdNeg.fuelEfficiency = some 1 :=
  jsParseFloat_of_split _ 1 0 0 _ (by rfl) (by norm_num)

theorem parse_fdNeg_fuelPrice : jsParseFloat fdNeg.fuelPrice = some 1 :=
  jsParseFloat_of_split _ 1 0 0 _ (by rfl) (by norm_num)

theorem parse_fdNeg_distanceToWork : jsParseFloat fdNeg.distanceToWork = none :=
  jsParseFloat_of_split_none _ (by rfl)

theorem parse_fdNeg_workingDays : jsParseFloat fdNeg.workingDaysPerMonth = some 1 :=
  jsParseFloat_of_split _ 1 0 0 _ (by rfl) (by norm_num)

theorem parse_fdNeg_maintenance : jsParseFloat fdNeg.maintenanceCosts = none :=
  jsParseFloat_of_split_none _ (by rfl)

theorem parse_fdNeg_insurance : jsParseFloat fdNeg.insuranceCosts = none :=
  jsParseFloat_of_split_none _ (by rfl)

theorem parse_fdNeg_resaleValue : jsParseFloat fdNeg.resaleValue = some 1300 :=
  jsParseFloat_of_split _ 1300 0 0 _ (by rfl) (by norm_num)

theorem parse_fdNeg_resaleYears : jsParseFloat fdNeg.resaleYears = some 1 :=
  jsParseFloat_of_split _ 1 0 0 _ (by rfl) (by norm_num)

theorem parse_fdNeg_publicTransport : jsParseFloat fdNeg.publicTransportCosts = none :=
  jsParseFloat_of_split_none _ (by rfl)

/-- The parsed engine inputs for the negative-depreciation form state. -/
theorem engineValues_fdNeg :
    engineValues fdNeg = ⟨100, 1, 1, 0, 1, 0, 0, 1300, 1, 0⟩ := by
  simp only [engineValues, parse_fdNeg_carPrice, parse_fdNeg_fuelEfficiency,
    parse_fdNeg_fuelPrice, parse_fdNeg_distanceToWork, parse_fdNeg_workingDays,
    parse_fdNeg_maintenance, parse_fdNeg_insurance, parse_fdNeg_resaleValue,
    parse_fdNeg_resaleYears, parse_fdNeg_publicTransport, jsOrDefault_none]
  rw [jsOrDefault_some_ne 100 0 (by norm_num), jsOrDefault_some_ne 1 0 (by norm_num),
    jsOrDefault_some_ne 1300 0 (by norm_num), jsOrDefault_some_ne 1 1 (by norm_num)]

theorem parse_s0 : jsParseFloat s0 = some 0 :=
  jsParseFloat_of_split _ 0 0 0 _ (by rfl) (by norm_num)

theorem parse_s1 : jsParseFloat s1 = some 1 :=
  jsParseFloat_of_split _ 1 0 0 _ (by rfl) (by norm_num)

theorem parse_s31 : jsParseFloat s31 = some 31 :=
  jsParseFloat_of_split _ 31 0 0 _ (by rfl) (by norm_num)

theorem parse_s32 : jsParseFloat s32 = some 32 :=
  jsParseFloat_of_split _ 32 0 0 _ (by rfl) (by norm_num)

/-- Evaluation rule for the `toFixed(2)` model at a non-negative rational
whose rounding is known. -/
theorem jsToFixed2_eval (q : ℚ) (n : ℕ) (h0 : ¬ q < 0) (hf : ⌊q * 100 + 1 / 2⌋ = (n : ℤ)) :
    jsToFixed2 q = toString (n / 100) ++ (dotStr ++ pad2 (n % 100)) := by
  rw [jsToFixed2, if_neg h0, fixed2mag]
  rw [hf, Int.toNat_natCast]

/-- Evaluation rule for the `toFixed(2)` model at a negative rational whose
magnitude rounding is known. -/
theorem jsToFixed2_eval_neg (q : ℚ) (n : ℕ) (h0 : q < 0) (hf : ⌊-q * 100 + 1 / 2⌋ = (n : ℤ)) :
    jsToFixed2 q = minusStr ++ (toString (n / 100) ++ (dotStr ++ pad2 (n % 100))) := by
  rw [jsToFixed2, if_pos h0, fixed2mag]
  rw [hf, Int.toNat_natCast]

/-- A valid whole form passed every single-field validation. -/
theorem validateForm_isValid_implies_field (fd : FormData) (f : FieldName)
    (hf : f ∈ allFields) (hv : (validateForm fd).isValid = true) :
    validateField f (fd.get f) = emptyStr := by
  rw [validateForm_isValid, Bool.and_eq_true] at hv
  have hall := hv.1
  rw [List.all_eq_true] at hall
  simpa using hall f hf

/-! ### The claims -/

/-- C1: every CalculationResult produced by a successful calculation stores as
its four monthly cost components the very summands from which totalCarCost is
built, so fuelCosts + maintenanceCost + insuranceCost + depreciationCost =
totalCarCost; and a successful calculation stores exactly `computeResult fd`. -/
theorem c1_components_sum_to_total :
    (∀ fd : FormData,
      (computeResult fd).fuelCosts + (computeResult fd).maintenanceCost +
        (computeResult fd).insuranceCost + (computeResult fd).depreciationCost =
        (computeResult fd).totalCarCost) ∧
    ∀ (fd : FormData) (prev : Option CalculationResult),
      (validateForm fd).isValid = true → calculateCosts fd prev = some (computeResult fd) := by
  constructor
  · intro fd
    rfl
  · intro fd prev hv
    rw [calculateCosts, if_pos hv]

/-- C1 witness: the worked scenario calculates successfully and its result
satisfies the component-sum invariant. -/
theorem c1_components_sum_to_total_witness :
    calculateCosts fdScenario none = some (computeResult fdScenario) ∧
    (computeResult fdScenario).fuelCosts + (computeResult fdScenario).maintenanceCost +
      (computeResult fdScenario).insuranceCost + (computeResult fdScenario).depreciationCost =
      (computeResult fdScenario).totalCarCost :=
  ⟨c1_components_sum_to_total.2 fdScenario none validateForm_fdScenario,
    c1_components_sum_to_total.1 fdScenario⟩

/-- C4: yearlySavings equals (totalCommuteCost - totalCarCost) * 12, i.e. the
engine's publicTransportCosts*12 - monthlyCarCost*12 is twelve times the
monthly savings. -/
theorem c4_yearly_savings_consistent :
    ∀ fd : FormData,
      (computeResult fd).yearlySavings =
        ((computeResult fd).totalCommuteCost - (computeResult fd).totalCarCost) * 12 := by
  intro fd
  simp only [computeResult]
  ring

/-- C8: at calculation time every field whose raw string fails to parse to a
number is defaulted to 0, except resaleYears which is defaulted to 1, and the
engine computes with these defaults. -/
theorem c8_parse_defaults :
    ∀ (fd : FormData) (f : FieldName),
      jsParseFloat (fd.get f) = none →
      (engineValues fd).get f = if f = FieldName.resaleYears then 1 else 0 := by
  intro fd f h
  cases f <;> simp only [FormData.get] at h <;>
    simp [EngineValues.get, engineValues, h, jsOrDefault]

/-- C8 witness: on the pristine form every engine input is 0 except
resaleYears, which is 1. -/
theorem c8_parse_defaults_witness :
    (engineValues fdEmpty).get FieldName.resaleYears = 1 ∧
    (engineValues fdEmpty).get FieldName.carPrice = 0 := by
  constructor
  · have h := c8_parse_defaults fdEmpty FieldName.resaleYears (by rfl)
    simpa using h
  · have h := c8_parse_defaults fdEmpty FieldName.carPrice (by rfl)
    simpa using h

/-- C9: monthly depreciation is (carPrice - resaleValue) / (resaleYears * 12),
stored unmodified — it is the same summand inside totalCarCost, and flows into
monthlySavings and yearlySavings — and on the concrete form whose resale value
exceeds the car price it is the negative value -100, unclamped. -/
theorem c9_depreciation_unclamped :
    (∀ fd : FormData,
      (computeResult fd).depreciationCost =
        ((engineValues fd).carPrice - (engineValues fd).resaleValue) /
          ((engineValues fd).resaleYears * 12) ∧
      (computeResult fd).totalCarCost =
        (computeResult fd).fuelCosts + (computeResult fd).maintenanceCost +
          (computeResult fd).insuranceCost + (computeResult fd).depreciationCost ∧
      (computeResult fd).monthlySavings =
        (engineValues fd).publicTransportCosts - (computeResult fd).totalCarCost ∧
      (computeResult fd).yearlySavings =
        (engineValues fd).publicTransportCosts * 12 - (computeResult fd).totalCarCost * 12) ∧
    (computeResult fdNeg).depreciationCost = -100 ∧
    (computeResult fdNeg).depreciationCost < 0 := by
  refine ⟨fun fd => ⟨rfl, rfl, rfl, rfl⟩, ?_, ?_⟩
  · simp only [computeResult, engineValues_fdNeg]
    norm_num
  · simp only [computeResult, engineValues_fdNeg]
    norm_num

/-- C3: the spec's worked scenario: monthlyDistance 440, fuel cost 440/15*100,
depreciation (600000-200000)/60, total monthly car cost 11600 made of the four
components, monthly savings 2000 - 11600, and yearly emissions
440*12*0.404/1000 metric tons. -/
theorem c3_worked_scenario :
    monthlyDistanceOf fdScenario = 440 ∧
    (computeResult fdScenario).fuelCosts = 440 / 15 * 100 ∧
    (computeResult fdScenario).depreciationCost = (600000 - 200000) / 60 ∧
    (computeResult fdScenario).totalCarCost =
      (computeResult fdScenario).fuelCosts + 1000 + 12000 / 12 +
        (computeResult fdScenario).depreciationCost ∧
    (computeResult fdScenario).totalCarCost = 11600 ∧
    (computeResult fdScenario).monthlySavings = 2000 - 11600 ∧
    (computeResult fdScenario).yearlyEmissions = 440 * 12 * (404 / 1000) / 1000 := by
  refine ⟨?_, ?_, ?_, ?_, ?_, ?_, ?_⟩ <;>
    simp only [computeResult, monthlyDistanceOf, calculateEmissions, engineValues_fdScenario] <;>
    norm_num

/-- C5: attempting calculation with carPrice empty makes validateForm record
the required-field message on carPrice and return false, so calculateCosts
returns early and the stored result (or its absence) is unchanged. -/
theorem c5_required_carPrice :
    ∀ fd : FormData, fd.carPrice = emptyStr →
      (validateForm fd).errors FieldName.carPrice = errRequired ∧
      (validateForm fd).isValid = false ∧
      ∀ prev : Option CalculationResult, calculateCosts fd prev = prev := by
  intro fd h
  have hg : fd.get FieldName.carPrice = emptyStr := h
  have hvalid : (validateForm fd).isValid = false := by
    rw [validateForm_isValid]
    simp [requiredFields, hg]
  refine ⟨?_, hvalid, ?_⟩
  · have hlist : requiredFields = FieldName.carPrice :: [FieldName.fuelEfficiency,
        FieldName.fuelPrice, FieldName.workingDaysPerMonth] := rfl
    have hstep : requiredStep fd (allFields.foldl (fieldStep fd) ⟨fun _ => emptyStr, true⟩)
        FieldName.carPrice =
        ⟨Function.update (allFields.foldl (fieldStep fd) ⟨fun _ => emptyStr, true⟩).errors
          FieldName.carPrice errRequired, false⟩ := by
      simp [requiredStep, hg]
    rw [validateForm, hlist, List.foldl_cons, hstep,
      errors_foldl_requiredStep_notmem fd _ _ FieldName.carPrice (by decide)]
    simp [Function.update_same]
  · intro prev
    rw [calculateCosts, hvalid]
    simp

/-- C5 witness: on the pristine form, carPrice carries the required-field
message, validation fails, and the absent result stays absent. -/
theorem c5_required_carPrice_witness :
    (validateForm fdEmpty).errors FieldName.carPrice = errRequired ∧
    (validateForm fdEmpty).isValid = false ∧
    calculateCosts fdEmpty none = none :=
  ⟨(c5_required_carPrice fdEmpty rfl).1, (c5_required_carPrice fdEmpty rfl).2.1,
    (c5_required_carPrice fdEmpty rfl).2.2 none⟩

/-- C6: for a nonempty filter-accepted string, the working-days validator
returns the between-1-and-31 message exactly when the string parses to a
number that is ≤ 0 or > 31 (a NaN parse fails no comparison), and returns the
empty string otherwise. -/
theorem c6_workingDays_validator :
    ∀ s : String, s ≠ emptyStr → decimalFilter s = true →
      (validateField FieldName.workingDaysPerMonth s = errWorkingDays ↔
        ∃ q : ℚ, jsParseFloat s = some q ∧ (q ≤ 0 ∨ 31 < q)) ∧
      (validateField FieldName.workingDaysPerMonth s = emptyStr ↔
        ¬∃ q : ℚ, jsParseFloat s = some q ∧ (q ≤ 0 ∨ 31 < q)) := by
  intro s hs _hfilter
  have hne : errWorkingDays ≠ emptyStr := by decide
  cases hp : jsParseFloat s with
  | none =>
      have hv : validateField FieldName.workingDaysPerMonth s = emptyStr :=
        validateField_eq_empty_of_none _ _ hp
      have hnot : ¬∃ q : ℚ, (none : Option ℚ) = some q ∧ (q ≤ 0 ∨ 31 < q) := by
        rintro ⟨q, hq, -⟩
        cases hq
      rw [hv]
      exact ⟨⟨fun he => absurd he.symm hne, fun hex => absurd hex hnot⟩,
        ⟨fun _ => hnot, fun _ => rfl⟩⟩
  | some q =>
      by_cases hq : q ≤ 0 ∨ 31 < q
      · have hcond : (jsLe (jsParseFloat s) 0 || jsGt (jsParseFloat s) 31) = true := by
          rw [hp]
          rcases hq with h | h
          · simp [jsLe, h]
          · simp [jsGt, h]
        have hv : validateField FieldName.workingDaysPerMonth s = errWorkingDays := by
          simp only [validateField, if_neg hs, hcond]
          rfl
        have hex : ∃ q' : ℚ, (some q : Option ℚ) = some q' ∧ (q' ≤ 0 ∨ 31 < q') :=
          ⟨q, rfl, hq⟩
        rw [hv]
        exact ⟨⟨fun _ => hex, fun _ => rfl⟩,
          ⟨fun he => absurd he hne, fun hn => absurd hex hn⟩⟩
      · push_neg at hq
        have hcond : (jsLe (jsParseFloat s) 0 || jsGt (jsParseFloat s) 31) = false := by
          rw [hp]
          simp [jsLe, jsGt, not_le.mpr hq.1, not_lt.mpr hq.2]
        have hv : validateField FieldName.workingDaysPerMonth s = emptyStr := by
          simp only [validateField, if_neg hs, hcond]
          rfl
        have hnot : ¬∃ q' : ℚ, (some q : Option ℚ) = some q' ∧ (q' ≤ 0 ∨ 31 < q') := by
          rintro ⟨q', hq', hc⟩
          rw [Option.some.injEq] at hq'
          subst hq'
          rcases hc with h | h
          · exact absurd h (not_le.mpr hq.1)
          · exact absurd h (not_lt.mpr hq.2)
        rw [hv]
        exact ⟨⟨fun he => absurd he.symm hne, fun hex => absurd hex hnot⟩,
          ⟨fun _ => hnot, fun _ => rfl⟩⟩

/-- C6 witness: the validator rejects the strings 0 and 32 with the
between-1-and-31 message and accepts the strings 1 and 31. -/
theorem c6_workingDays_validator_witness :
    validateField FieldName.workingDaysPerMonth s0 = errWorkingDays ∧
    validateField FieldName.workingDaysPerMonth s32 = errWorkingDays ∧
    validateField FieldName.workingDaysPerMonth s1 = emptyStr ∧
    validateField FieldName.workingDaysPerMonth s31 = emptyStr := by
  refine ⟨?_, ?_, ?_, ?_⟩
  · exact (c6_workingDays_validator s0 (by decide) (by decide)).1.mpr
      ⟨0, parse_s0, Or.inl (by norm_num)⟩
  · exact (c6_workingDays_validator s32 (by decide) (by decide)).1.mpr
      ⟨32, parse_s32, Or.inr (by norm_num)⟩
  · refine (c6_workingDays_validator s1 (by decide) (by decide)).2.mpr ?_
    rintro ⟨q, hq, hc⟩
    rw [parse_s1, Option.some.injEq] at hq
    subst hq
    rcases hc with h | h <;> norm_num at h
  · refine (c6_workingDays_validator s31 (by decide) (by decide)).2.mpr ?_
    rintro ⟨q, hq, hc⟩
    rw [parse_s31, Option.some.injEq] at hq
    subst hq
    rcases hc with h | h <;> norm_num at h

/-- C2 counterexample: the form whose fuelEfficiency is the lone-dot string
passes validateForm, its fuelEfficiency is nonempty and filter-accepted, yet
the value the engine computes with is 0, not strictly positive. -/
theorem c2_counterexample_dot_string :
    (validateForm fdDot).isValid = true ∧ fdDot.fuelEfficiency ≠ emptyStr ∧
    decimalFilter fdDot.fuelEfficiency = true ∧
    ¬ 0 < (engineValues fdDot).fuelEfficiency := by
  refine ⟨validateForm_fdDot, by decide, by decide, ?_⟩
  rw [engineValues_fdDot_fuelEfficiency]
  norm_num

/-- C2 amended: whenever validateForm returns true and fuelEfficiency parses
to an actual number (the string holds at least one digit), the value the
engine computes with is strictly positive. -/
theorem c2_amended_validated_fuelEfficiency_pos :
    ∀ (fd : FormData) (q : ℚ), (validateForm fd).isValid = true →
      jsParseFloat fd.fuelEfficiency = some q →
      0 < (engineValues fd).fuelEfficiency := by
  intro fd q hv hp
  have hfe := validateForm_isValid_implies_field fd FieldName.fuelEfficiency (by decide) hv
  have hget : fd.get FieldName.fuelEfficiency = fd.fuelEfficiency := rfl
  rw [hget] at hfe
  have hs : fd.fuelEfficiency ≠ emptyStr := by
    intro he
    rw [he] at hp
    have hnone : jsParseFloat emptyStr = none := rfl
    rw [hnone] at hp
    cases hp
  simp only [validateField, if_neg hs, hp] at hfe
  by_cases hq : q ≤ 0
  · rw [show jsLe (some q) 0 = true from by simp [jsLe, hq]] at hfe
    simp at hfe
    exact absurd hfe (by decide)
  · have hpos : 0 < q := not_le.mp hq
    simp only [engineValues]
    rw [hp, jsOrDefault_some_ne q 0 (ne_of_gt hpos)]
    exact hpos

/-- C2 amended witness: the worked scenario validates and its fuelEfficiency
string parses, so the engine's fuel efficiency is positive. -/
theorem c2_amended_witness : 0 < (engineValues fdScenario).fuelEfficiency :=
  c2_amended_validated_fuelEfficiency_pos fdScenario 15 validateForm_fdScenario
    parse_scenario_fuelEfficiency

/-- C7: the formatter's three bands — ≥ 10,000,000 scaled by 10,000,000 with
the Cr suffix, ≥ 100,000 scaled by 100,000 with the L suffix, ≥ 1,000 scaled
by 1,000 with the K suffix, below 1,000 unscaled with no suffix — and the
boundary values 1000, 100000 and 10000000 print as 1.00 K, 1.00 L and
1.00 Cr. -/
theorem c7_formatter_bands :
    (∀ num : ℚ, 0 ≤ num →
      (10000000 ≤ num → formatIndianNumber num = jsToFixed2 (num / 10000000) ++ crSuffix) ∧
      (100000 ≤ num → num < 10000000 →
        formatIndianNumber num = jsToFixed2 (num / 100000) ++ lSuffix) ∧
      (1000 ≤ num → num < 100000 →
        formatIndianNumber num = jsToFixed2 (num / 1000) ++ kSuffix) ∧
      (num < 1000 → formatIndianNumber num = jsToFixed2 num)) ∧
    formatIndianNumber 1000 = strOneK ∧ formatIndianNumber 100000 = strOneL ∧
    formatIndianNumber 10000000 = strOneCr := by
  refine ⟨fun num h0 => ⟨?_, ?_, ?_, ?_⟩, ?_, ?_, ?_⟩
  · intro h7
    rw [formatIndianNumber, if_pos h7]
  · intro h5 h7
    rw [formatIndianNumber, if_neg (not_le.mpr h7), if_pos h5]
  · intro h3 h5
    rw [formatIndianNumber,
      if_neg (not_le.mpr (h5.trans (show (100000 : ℚ) < 10000000 by norm_num))),
      if_neg (not_le.mpr h5), if_pos h3]
  · intro h3
    rw [formatIndianNumber,
      if_neg (not_le.mpr (h3.trans (show (1000 : ℚ) < 10000000 by norm_num))),
      if_neg (not_le.mpr (h3.trans (show (1000 : ℚ) < 100000 by norm_num))),
      if_neg (not_le.mpr h3)]
  · rw [formatIndianNumber, if_neg (by norm_num), if_neg (by norm_num), if_pos (by norm_num),
      show (1000 : ℚ) / 1000 = 1 from by norm_num,
      jsToFixed2_eval 1 100 (by norm_num) (by norm_num)]
    decide
  · rw [formatIndianNumber, if_neg (by norm_num), if_pos (by norm_num),
      show (100000 : ℚ) / 100000 = 1 from by norm_num,
      jsToFixed2_eval 1 100 (by norm_num) (by norm_num)]
    decide
  · rw [formatIndianNumber, if_pos (by norm_num),
      show (10000000 : ℚ) / 10000000 = 1 from by norm_num,
      jsToFixed2_eval 1 100 (by norm_num) (by norm_num)]
    decide

/-- C7 witness: the band rules applied at 500 (below every band) and at the
crore boundary. -/
theorem c7_formatter_bands_witness :
    formatIndianNumber 500 = jsToFixed2 500 ∧
    formatIndianNumber 10000000 = jsToFixed2 (10000000 / 10000000) ++ crSuffix := by
  constructor
  · exact (c7_formatter_bands.1 500 (by norm_num)).2.2.2 (by norm_num)
  · exact (c7_formatter_bands.1 10000000 (by norm_num)).1 (by norm_num)

/-- C10: every input below 1,000 — negative inputs included — skips all three
scaling bands and is rendered by `toFixed(2)` alone: a string ending in a dot
followed by exactly two digits, with no magnitude suffix. -/
theorem c10_below_thousand :
    ∀ q : ℚ, q < 1000 →
      formatIndianNumber q = jsToFixed2 q ∧
      ∃ n : ℕ, n < 100 ∧ ∃ p : String, jsToFixed2 q = p ++ (dotStr ++ pad2 n) := by
  intro q h3
  constructor
  · rw [formatIndianNumber,
      if_neg (not_le.mpr (h3.trans (show (1000 : ℚ) < 10000000 by norm_num))),
      if_neg (not_le.mpr (h3.trans (show (1000 : ℚ) < 100000 by norm_num))),
      if_neg (not_le.mpr h3)]
  · by_cases hneg : q < 0
    · refine ⟨(⌊-q * 100 + 1 / 2⌋).toNat % 100, Nat.mod_lt _ (by norm_num),
        minusStr ++ toString ((⌊-q * 100 + 1 / 2⌋).toNat / 100), ?_⟩
      rw [jsToFixed2, if_pos hneg, fixed2mag, String.append_assoc]
    · refine ⟨(⌊q * 100 + 1 / 2⌋).toNat % 100, Nat.mod_lt _ (by norm_num),
        toString ((⌊q * 100 + 1 / 2⌋).toNat / 100), ?_⟩
      rw [jsToFixed2, if_neg hneg, fixed2mag]

/-- C10 witness: the negative value -9600 (a possible negative depreciation)
is rendered unscaled and unsuffixed as -9600.00. -/
theorem c10_below_thousand_witness :
    formatIndianNumber (-9600) = jsToFixed2 (-9600) ∧
    formatIndianNumber (-9600) = strNeg9600 := by
  have h := c10_below_thousand (-9600) (by norm_num)
  refine ⟨h.1, ?_⟩
  rw [h.1, jsToFixed2_eval_neg (-9600) 960000 (by norm_num) (by norm_num)]
  decide

/-- C4 witness: the consistency equation instantiated at the worked scenario. -/
theorem c4_yearly_savings_consistent_witness :
    (computeResult fdScenario).yearlySavings =
      ((computeResult fdScenario).totalCommuteCost - (computeResult fdScenario).totalCarCost) *
        12 :=
  c4_yearly_savings_consistent fdScenario

/-- C9 witness: the depreciation formula instantiated at the
negative-depreciation form, where the stored value is negative. -/
theorem c9_depreciation_unclamped_witness :
    (computeResult fdNeg).depreciationCost =
      ((engineValues fdNeg).carPrice - (engineValues fdNeg).resaleValue) /
        ((engineValues fdNeg).resaleYears * 12) ∧
    (computeResult fdNeg).depreciationCost < 0 :=
  ⟨(c9_depreciation_unclamped.1 fdNeg).1, c9_depreciation_unclamped.2.2⟩
